import Mathlib

/-!
Shallow embedding of the Dodger arcade game (src/1.py).

Python floats are modelled as exact rationals (ℚ) except where the source
genuinely needs an irrational value (the diagonal-movement normalisation by
`math.hypot`, modelled over ℝ).  Python's `int(...)` conversion truncates
toward zero; it is modelled by `pyInt` / `pyIntR`.  `pygame.Rect` stores
integer coordinates; `colliderect` is pygame's strict axis-aligned overlap
test.  Pygame key state is modelled by the `Keys` record of held movement
keys (each Python key pair, e.g. `K_a or K_LEFT`, collapses to one flag).
-/

namespace Dodger

/-- Window width in pixels (config constant `WIDTH`). -/
def WIDTH : ℤ := 960

/-- Window height in pixels (config constant `HEIGHT`). -/
def HEIGHT : ℤ := 540

/-- Player square side length (`PLAYER_SIZE`). -/
def PLAYER_SIZE : ℤ := 36

/-- Enemy square side length (`ENEMY_SIZE`). -/
def ENEMY_SIZE : ℤ := 28

/-- Base player speed in px/s (`PLAYER_SPEED`). -/
def PLAYER_SPEED : ℚ := 330

/-- Dash speed in px/s (`DASH_SPEED`). -/
def DASH_SPEED : ℚ := 820

/-- Dash duration in seconds (`DASH_TIME = 0.18`). -/
def DASH_TIME : ℚ := 9/50

/-- Dash cooldown in seconds (`DASH_COOLDOWN = 1.2`). -/
def DASH_COOLDOWN : ℚ := 6/5

/-- Post-hit invincibility window in seconds (`INVINCIBLE_AFTER_HIT = 0.8`). -/
def INVINCIBLE_AFTER_HIT : ℚ := 4/5

/-- Base enemy spawn interval in seconds (`SPAWN_BASE_INTERVAL = 0.9`). -/
def SPAWN_BASE_INTERVAL : ℚ := 9/10

/-- Minimum enemy spawn interval in seconds (`SPAWN_MIN_INTERVAL = 0.18`). -/
def SPAWN_MIN_INTERVAL : ℚ := 9/50

/-- Difficulty ramp time in seconds (`SPAWN_ACCEL_TIME`). -/
def SPAWN_ACCEL_TIME : ℚ := 60

/-- Base enemy speed in px/s (`ENEMY_SPEED_BASE`). -/
def ENEMY_SPEED_BASE : ℚ := 180

/-- Maximum enemy speed in px/s (`ENEMY_SPEED_MAX`). -/
def ENEMY_SPEED_MAX : ℚ := 560

/-- The helper `clamp(v, lo, hi) = max(lo, min(hi, v))`, on rationals. -/
def clamp (v lo hi : ℚ) : ℚ := max lo (min hi v)

/-- The helper `clamp(v, lo, hi) = max(lo, min(hi, v))`, on integers
(the source applies the same Python function to rect coordinates). -/
def clampZ (v lo hi : ℤ) : ℤ := max lo (min hi v)

/-- Python's `int(x)` on a rational: truncation toward zero. -/
def pyInt (x : ℚ) : ℤ := if 0 ≤ x then ⌊x⌋ else ⌈x⌉

/-- A `pygame.Rect`: integer position and size. -/
structure Rect where
  x : ℤ
  y : ℤ
  w : ℤ
  h : ℤ
  deriving DecidableEq, Repr

/-- pygame's `Rect.colliderect`: strict axis-aligned rectangle overlap
(rects that merely touch along an edge do not collide). -/
def colliderect (a b : Rect) : Bool :=
  decide (a.x < b.x + b.w) && decide (a.x + a.w > b.x) &&
  decide (a.y < b.y + b.h) && decide (a.y + a.h > b.y)

/-- The `Player` entity state: rect plus timers and shield flag
(fields named as in the source). -/
structure Player where
  rect : Rect
  speed : ℚ
  invincible_until : ℚ
  has_shield : Bool
  dash_until : ℚ
  dash_cd_until : ℚ
  deriving DecidableEq, Repr

/-- Embeds `Player.hit(now)`: returns the lethality flag together with the
updated player.  Invincibility is checked first and returns with no state
change; otherwise a held shield is consumed and the post-hit invincibility
window granted; otherwise the hit is lethal and nothing changes. -/
def Player.hit (p : Player) (now : ℚ) : Bool × Player :=
  if now < p.invincible_until then
    (false, p)
  else if p.has_shield then
    (false, { p with has_shield := false,
                     invincible_until := now + INVINCIBLE_AFTER_HIT })
  else
    (true, p)

/-- Embeds `Player.try_dash(now)`: returns whether the dash fired together
with the updated player. -/
def Player.try_dash (p : Player) (now : ℚ) : Bool × Player :=
  if p.dash_cd_until ≤ now then
    (true, { p with dash_until := now + DASH_TIME,
                    dash_cd_until := now + DASH_COOLDOWN,
                    invincible_until :=
                      max p.invincible_until (now + DASH_TIME * (9/10)) })
  else
    (false, p)

/-- Embeds `Game.difficulty(t)`: spawn interval and enemy speed as linear
interpolations driven by `k = clamp(t / SPAWN_ACCEL_TIME, 0, 1)`. -/
def difficulty (t : ℚ) : ℚ × ℚ :=
  let k := clamp (t / SPAWN_ACCEL_TIME) 0 1
  (SPAWN_BASE_INTERVAL * (1 - k) + SPAWN_MIN_INTERVAL * k,
   ENEMY_SPEED_BASE * (1 - k) + ENEMY_SPEED_MAX * k)

/-- Modelled from the spec's reference definition of the difficulty curve
(for the refinement part of the curve claim): base and limit pairs linearly
interpolated by the clamped ramp parameter. -/
def difficultyRef (t : ℚ) : ℚ × ℚ :=
  let k := max 0 (min 1 (t / 60))
  ((9/10) * (1 - k) + (9/50) * k, 180 * (1 - k) + 560 * k)

/-- Embeds the score assignment in `Game.update`:
`score = elapsed * 10 + max(0, len(enemies) - 4)`. -/
def scoreFormula (elapsed : ℚ) (nEnemies : ℕ) : ℚ :=
  elapsed * 10 + ((max 0 ((nEnemies : ℤ) - 4) : ℤ) : ℚ)

/-- Embeds the high-score update in `Game.game_over`: the persisted best
after game over, given the session score and the previous best
(`final = int(score)`; update only when strictly greater). -/
def gameOverBest (score : ℚ) (best : ℤ) : ℤ :=
  let finalScore := pyInt score
  if finalScore > best then finalScore else best

/-- One tick of `Enemy.update` restricted to the vertical coordinate:
`rect.y += int(speed * dt)`. -/
def enemyStepY (speed : ℚ) (y : ℤ) (dt : ℚ) : ℤ :=
  y + pyInt (speed * dt)

/-- Repeated `Enemy.update` vertical motion over a list of tick deltas. -/
def enemyRunY (speed : ℚ) (y : ℤ) (dts : List ℚ) : ℤ :=
  dts.foldl (fun z dt => enemyStepY speed z dt) y

/-- Held movement keys sampled by `Player.update` (each flag stands for the
corresponding Python key pair, e.g. `keys[K_a] or keys[K_LEFT]`). -/
structure Keys where
  left : Bool
  right : Bool
  up : Bool
  down : Bool

/-- Python's `int(x)` on a real: truncation toward zero (the real-valued
model of float-to-int conversion in the movement integration). -/
noncomputable def pyIntR (x : ℝ) : ℤ := if 0 ≤ x then ⌊x⌋ else ⌈x⌉

/-- The velocity direction computed by `Player.update`: axis flags summed
into a vector, then normalised by `math.hypot` when nonzero. -/
noncomputable def keyVel (k : Keys) : ℝ × ℝ :=
  let vx : ℝ := (if k.left then -1 else 0) + (if k.right then 1 else 0)
  let vy : ℝ := (if k.up then -1 else 0) + (if k.down then 1 else 0)
  if vx ≠ 0 ∨ vy ≠ 0 then
    let mag := Real.sqrt (vx ^ 2 + vy ^ 2)
    (vx / mag, vy / mag)
  else
    (vx, vy)

/-- Embeds `Player.update(dt, keys, now)`: pick the dash speed while the
dash is active, move by the normalised direction times `speed * dt`
truncated to integer pixels per component, then clamp into the field. -/
noncomputable def Player.update (p : Player) (dt : ℝ) (k : Keys) (now : ℚ) :
    Player :=
  let spd : ℚ := if now < p.dash_until then DASH_SPEED else p.speed
  let v := keyVel k
  let x := p.rect.x + pyIntR (v.1 * (spd : ℝ) * dt)
  let y := p.rect.y + pyIntR (v.2 * (spd : ℝ) * dt)
  { p with rect :=
      { p.rect with
          x := clampZ x 0 (WIDTH - PLAYER_SIZE),
          y := clampZ y 0 (HEIGHT - PLAYER_SIZE) } }

/-- The displacement magnitude of one `Player.update` movement step before
the per-component integer truncation: the Euclidean norm of the normalised
direction scaled by `speed * dt`. -/
noncomputable def dispMag (k : Keys) (spd dt : ℝ) : ℝ :=
  Real.sqrt (((keyVel k).1 * spd * dt) ^ 2 + ((keyVel k).2 * spd * dt) ^ 2)

/-- The session state tags `S_MENU, S_PLAY, S_PAUSE, S_GAMEOVER`. -/
inductive GState where
  | menu
  | play
  | pause
  | gameover
  deriving DecidableEq, Repr

/-- The slice of the `Game` object that collision handling touches.  Live
enemies and power-ups are kept as their rects (the only per-entity data the
collision pass reads; the single power-up kind is always `"shield"`). -/
structure Game where
  player : Player
  enemies : List Rect
  powerups : List Rect
  score : ℚ
  high_score : ℤ
  state : GState

/-- The enemy loop of `Game.handle_collisions`: iterate over the snapshot
of live enemies; on overlap invoke `Player.hit`; a lethal hit triggers
`game_over` (recorded as the Bool) and keeps iterating, a non-lethal hit
removes that enemy from the live list. -/
def resolveEnemies (now : ℚ) : Player → List Rect → Player × Bool × List Rect
  | p, [] => (p, false, [])
  | p, e :: rest =>
    if colliderect p.rect e then
      if (p.hit now).1 then
        ((resolveEnemies now (p.hit now).2 rest).1, true,
          e :: (resolveEnemies now (p.hit now).2 rest).2.2)
      else
        resolveEnemies now (p.hit now).2 rest
    else
      ((resolveEnemies now p rest).1, (resolveEnemies now p rest).2.1,
        e :: (resolveEnemies now p rest).2.2)

/-- The power-up loop of `Game.handle_collisions`: every overlapping
power-up grants the shield and is removed. -/
def resolvePowerups (prect : Rect) : Bool → List Rect → Bool × List Rect
  | sh, [] => (sh, [])
  | sh, q :: rest =>
    if colliderect prect q then
      resolvePowerups prect true rest
    else
      ((resolvePowerups prect sh rest).1,
        q :: (resolvePowerups prect sh rest).2)

/-- Embeds `Game.handle_collisions(now)` together with the `game_over`
call it makes on a lethal hit (state to game over, best score updated). -/
def Game.handle_collisions (g : Game) (now : ℚ) : Game :=
  let r := resolveEnemies now g.player g.enemies
  let s := resolvePowerups r.1.rect r.1.has_shield g.powerups
  { g with player := { r.1 with has_shield := s.1 },
           enemies := r.2.2,
           powerups := s.2,
           state := if r.2.1 then GState.gameover else g.state,
           high_score :=
             if r.2.1 then gameOverBest g.score g.high_score
             else g.high_score }

/-- Sample player used by concrete witnesses: shield held, invincible
until t = 10, dash timers clear. -/
def samplePlayer : Player :=
  { rect := { x := 100, y := 100, w := 36, h := 36 },
    speed := PLAYER_SPEED, invincible_until := 10, has_shield := true,
    dash_until := 0, dash_cd_until := 0 }

/-- Sample player with no shield and no invincibility. -/
def bareSamplePlayer : Player :=
  { rect := { x := 100, y := 100, w := 36, h := 36 },
    speed := PLAYER_SPEED, invincible_until := 0, has_shield := false,
    dash_until := 0, dash_cd_until := 0 }

/-- C5: `Player.hit` resolves in strict order with invincibility checked
first: whenever `now < invincible_until` the hit is absorbed (non-lethal)
even if a shield is held, and the shield is not consumed. -/
theorem hit_checks_invincibility_first (p : Player) (now : ℚ)
    (h : now < p.invincible_until) :
    (p.hit now).1 = false ∧ ((p.hit now).2).has_shield = p.has_shield := by
  simp [Player.hit, h]

/-- Witness for C5 at the shielded, invincible sample player. -/
theorem hit_checks_invincibility_first_witness :
    (5 : ℚ) < samplePlayer.invincible_until ∧
    ((samplePlayer.hit 5).1 = false ∧
      ((samplePlayer.hit 5).2).has_shield = samplePlayer.has_shield) :=
  ⟨by norm_num [samplePlayer],
   hit_checks_invincibility_first samplePlayer 5 (by norm_num [samplePlayer])⟩

/-- C10: while invincible, `Player.hit` has no side effect at all — the
returned player state equals the input state in every field. -/
theorem hit_invincible_no_state_change (p : Player) (now : ℚ)
    (h : now < p.invincible_until) : (p.hit now).2 = p := by
  simp [Player.hit, h]

/-- Witness for C10 at the invincible sample player. -/
theorem hit_invincible_no_state_change_witness :
    (5 : ℚ) < samplePlayer.invincible_until ∧
    (samplePlayer.hit 5).2 = samplePlayer :=
  ⟨by norm_num [samplePlayer],
   hit_invincible_no_state_change samplePlayer 5 (by norm_num [samplePlayer])⟩

/-- C6: with a shield held and invincibility expired, `Player.hit` is
absorbed by the shield: it returns non-lethal, clears the shield, grants
`invincible_until = now + INVINCIBLE_AFTER_HIT`, and any second hit inside
that window is absorbed by invincibility (non-lethal, no state change). -/
theorem hit_consumes_shield (p : Player) (now : ℚ)
    (hsh : p.has_shield = true) (hinv : p.invincible_until ≤ now) :
    (p.hit now).1 = false ∧
    ((p.hit now).2).has_shield = false ∧
    ((p.hit now).2).invincible_until = now + INVINCIBLE_AFTER_HIT ∧
    (∀ now' : ℚ, now' < now + INVINCIBLE_AFTER_HIT →
      ((p.hit now).2).hit now' = (false, (p.hit now).2)) := by
  have h1 : ¬ now < p.invincible_until := not_lt.mpr hinv
  refine ⟨by simp [Player.hit, h1, hsh], by simp [Player.hit, h1, hsh],
    by simp [Player.hit, h1, hsh], ?_⟩
  intro now' h'
  simp only [Player.hit, h1, if_false, hsh, if_true, ite_true, ite_false]
  simp [Player.hit, h']

/-- Witness for C6: the shielded sample player hit at `now = 10`. -/
theorem hit_consumes_shield_witness :
    samplePlayer.has_shield = true ∧
    samplePlayer.invincible_until ≤ (10 : ℚ) ∧
    ((samplePlayer.hit 10).1 = false ∧
     ((samplePlayer.hit 10).2).has_shield = false ∧
     ((samplePlayer.hit 10).2).invincible_until = 10 + INVINCIBLE_AFTER_HIT ∧
     (∀ now' : ℚ, now' < 10 + INVINCIBLE_AFTER_HIT →
       ((samplePlayer.hit 10).2).hit now' = (false, (samplePlayer.hit 10).2))) :=
  ⟨rfl, by norm_num [samplePlayer],
   hit_consumes_shield samplePlayer 10 rfl (by norm_num [samplePlayer])⟩

/-- C7: `Player.try_dash` succeeds exactly when the cooldown has elapsed;
a failing call changes nothing, and after a success any retry before
`now + DASH_COOLDOWN` fails and changes nothing. -/
theorem try_dash_cooldown_gate (p : Player) (now : ℚ) :
    ((p.try_dash now).1 = true ↔ p.dash_cd_until ≤ now) ∧
    ((p.try_dash now).1 = false → (p.try_dash now).2 = p) ∧
    (p.dash_cd_until ≤ now →
      ∀ now' : ℚ, now' < now + DASH_COOLDOWN →
        ((p.try_dash now).2).try_dash now' = (false, (p.try_dash now).2)) := by
  by_cases h : p.dash_cd_until ≤ now
  · refine ⟨by simp [Player.try_dash, h], by simp [Player.try_dash, h], ?_⟩
    intro _ now' h'
    have h2 : ¬ (now + DASH_COOLDOWN ≤ now') := not_le.mpr h'
    simp [Player.try_dash, h, h2]
  · refine ⟨by simp [Player.try_dash, h], by simp [Player.try_dash, h],
      fun hc => absurd hc h⟩

/-- Witness for C7: a dash fires at `now = 0` from the bare sample player
and a retry at `now = 1` (inside the 1.2 s cooldown) is a no-op. -/
theorem try_dash_cooldown_gate_witness :
    bareSamplePlayer.dash_cd_until ≤ (0 : ℚ) ∧
    (1 : ℚ) < 0 + DASH_COOLDOWN ∧
    ((bareSamplePlayer.try_dash 0).2).try_dash 1 =
      (false, (bareSamplePlayer.try_dash 0).2) :=
  ⟨by norm_num [bareSamplePlayer],
   by norm_num [DASH_COOLDOWN],
   (try_dash_cooldown_gate bareSamplePlayer 0).2.2
     (by norm_num [bareSamplePlayer]) 1 (by norm_num [DASH_COOLDOWN])⟩

/-- C9: on game over the persisted best is updated to the final integer
score exactly when strictly greater; in particular final score 85 against
best 100 keeps 100, and final score 150 against best 100 yields 150. -/
theorem game_over_best_spec (s : ℚ) (b : ℤ) :
    (pyInt s ≤ b → gameOverBest s b = b) ∧
    (b < pyInt s → gameOverBest s b = pyInt s) ∧
    gameOverBest 85 100 = 100 ∧ gameOverBest 150 100 = 150 := by
  refine ⟨fun h => by simp [gameOverBest, not_lt.mpr h],
    fun h => by simp [gameOverBest, h], ?_, ?_⟩
  · norm_num [gameOverBest, pyInt]
  · norm_num [gameOverBest, pyInt]

/-- Witness for C9 at final score 85 against persisted best 100. -/
theorem game_over_best_spec_witness :
    pyInt 85 ≤ (100 : ℤ) ∧ gameOverBest 85 100 = 100 :=
  ⟨by norm_num [pyInt], (game_over_best_spec 85 100).1 (by norm_num [pyInt])⟩

/-- The clamped ramp parameter of the difficulty curve is monotone in
elapsed time. -/
theorem clamp_ramp_mono {s u : ℚ} (hsu : s ≤ u) :
    clamp (s / SPAWN_ACCEL_TIME) 0 1 ≤ clamp (u / SPAWN_ACCEL_TIME) 0 1 := by
  have hdiv : s / SPAWN_ACCEL_TIME ≤ u / SPAWN_ACCEL_TIME := by
    apply div_le_div_of_nonneg_right hsu ?_ |>.trans_eq rfl
    norm_num [SPAWN_ACCEL_TIME]
  exact max_le_max le_rfl (min_le_min le_rfl hdiv)

/-- C8: the difficulty curve equals the spec's reference formula, yields
the base pair at `t = 0`, saturates at the limit pair for every
`t ≥ SPAWN_ACCEL_TIME`, and as elapsed time grows the spawn interval is
non-increasing while the enemy speed is non-decreasing. -/
theorem difficulty_curve_spec (t s u : ℚ) (hsu : s ≤ u) :
    difficulty t = difficultyRef t ∧
    difficulty 0 = (SPAWN_BASE_INTERVAL, ENEMY_SPEED_BASE) ∧
    (SPAWN_ACCEL_TIME ≤ t →
      difficulty t = (SPAWN_MIN_INTERVAL, ENEMY_SPEED_MAX)) ∧
    (difficulty u).1 ≤ (difficulty s).1 ∧
    (difficulty s).2 ≤ (difficulty u).2 := by
  refine ⟨rfl, ?_, ?_, ?_, ?_⟩
  · norm_num [difficulty, clamp, SPAWN_ACCEL_TIME, SPAWN_BASE_INTERVAL,
      ENEMY_SPEED_BASE]
  · intro ht
    have h1 : (1 : ℚ) ≤ t / SPAWN_ACCEL_TIME := by
      rw [le_div_iff₀ (by norm_num [SPAWN_ACCEL_TIME])]
      simpa [SPAWN_ACCEL_TIME] using ht
    have hk : clamp (t / SPAWN_ACCEL_TIME) 0 1 = 1 := by
      simp [clamp, min_eq_left h1]
    norm_num [difficulty, hk, SPAWN_MIN_INTERVAL, ENEMY_SPEED_MAX]
  · have hk := clamp_ramp_mono hsu
    have hb : SPAWN_MIN_INTERVAL ≤ SPAWN_BASE_INTERVAL := by
      norm_num [SPAWN_MIN_INTERVAL, SPAWN_BASE_INTERVAL]
    simp only [difficulty]
    nlinarith [hk, hb]
  · have hk := clamp_ramp_mono hsu
    have hb : ENEMY_SPEED_BASE ≤ ENEMY_SPEED_MAX := by
      norm_num [ENEMY_SPEED_BASE, ENEMY_SPEED_MAX]
    simp only [difficulty]
    nlinarith [hk, hb]

/-- Witness for C8 at `t = 90`, `s = 30`, `u = 90`. -/
theorem difficulty_curve_spec_witness :
    (30 : ℚ) ≤ 90 ∧ SPAWN_ACCEL_TIME ≤ (90 : ℚ) ∧
    difficulty 90 = (SPAWN_MIN_INTERVAL, ENEMY_SPEED_MAX) ∧
    (difficulty 90).1 ≤ (difficulty 30).1 :=
  ⟨by norm_num,
   by norm_num [SPAWN_ACCEL_TIME],
   (difficulty_curve_spec 90 30 90 (by norm_num)).2.2.1
     (by norm_num [SPAWN_ACCEL_TIME]),
   (difficulty_curve_spec 90 30 90 (by norm_num)).2.2.2.1⟩

/-- C2 counterexample: score monotonicity fails for arbitrary evolutions
of the live obstacle count: from elapsed 1 s with 10 live obstacles
(score 16) to elapsed 1.1 s with 0 live obstacles (score 11) the score
strictly decreases although time advanced. -/
theorem score_not_monotone_counterexample :
    (1 : ℚ) < 11/10 ∧ scoreFormula (11/10) 0 < scoreFormula 1 10 := by
  constructor
  · norm_num
  · norm_num [scoreFormula]

/-- C2 amended: while playing, the score is monotone over consecutive
ticks provided the live obstacle count does not drop: later elapsed time
and no smaller obstacle count give a score at least as large. -/
theorem score_monotone_without_count_drop (e1 e2 : ℚ) (n1 n2 : ℕ)
    (he : e1 ≤ e2) (hn : n1 ≤ n2) :
    scoreFormula e1 n1 ≤ scoreFormula e2 n2 := by
  unfold scoreFormula
  have h1 : max 0 ((n1 : ℤ) - 4) ≤ max 0 ((n2 : ℤ) - 4) := by
    apply max_le_max le_rfl
    omega
  have h2 : ((max 0 ((n1 : ℤ) - 4) : ℤ) : ℚ) ≤
      ((max 0 ((n2 : ℤ) - 4) : ℤ) : ℚ) := by exact_mod_cast h1
  linarith

/-- Witness for the amended C2 from elapsed 0 s, 0 obstacles to elapsed
1 s, 5 obstacles. -/
theorem score_monotone_without_count_drop_witness :
    (0 : ℚ) ≤ 1 ∧ (0 : ℕ) ≤ 5 ∧ scoreFormula 0 0 ≤ scoreFormula 1 5 :=
  ⟨by norm_num, by norm_num,
   score_monotone_without_count_drop 0 1 0 5 (by norm_num) (by norm_num)⟩

/-- Unfolding of the per-tick vertical enemy motion into a sum of
truncated per-tick increments. -/
theorem enemyRunY_eq (speed : ℚ) (y : ℤ) (dts : List ℚ) :
    enemyRunY speed y dts = y + (dts.map fun d => pyInt (speed * d)).sum := by
  induction dts generalizing y with
  | nil => simp [enemyRunY]
  | cons d tl ih =>
    have h : enemyRunY speed y (d :: tl) =
        enemyRunY speed (y + pyInt (speed * d)) tl := rfl
    rw [h, ih]
    simp [add_assoc]

/-- Truncation toward zero of an integer value is that value. -/
theorem pyInt_intCast (n : ℤ) : pyInt (n : ℚ) = n := by
  unfold pyInt
  split <;> simp

/-- The summed truncated increments are bounded by the exact distance. -/
theorem pyInt_sum_le (speed : ℚ) (hs : 0 ≤ speed) (dts : List ℚ)
    (hpos : ∀ d ∈ dts, 0 ≤ d) :
    (((dts.map fun d => pyInt (speed * d)).sum : ℤ) : ℚ) ≤ speed * dts.sum := by
  induction dts with
  | nil => simp
  | cons d tl ih =>
    have hd : 0 ≤ d := hpos d (by simp)
    have h1 : (pyInt (speed * d) : ℚ) ≤ speed * d := by
      rw [pyInt, if_pos (by positivity)]
      exact_mod_cast Int.floor_le (speed * d)
    have h2 := ih fun x hx => hpos x (by simp [hx])
    simp only [List.map_cons, List.sum_cons, Int.cast_add, mul_add]
    push_cast at h2 ⊢
    linarith

/-- When every per-tick increment is a whole number the truncated sum is
exact. -/
theorem pyInt_sum_eq (speed : ℚ) (dts : List ℚ)
    (hint : ∀ d ∈ dts, ∃ n : ℤ, speed * d = (n : ℚ)) :
    (((dts.map fun d => pyInt (speed * d)).sum : ℤ) : ℚ) = speed * dts.sum := by
  induction dts with
  | nil => simp
  | cons d tl ih =>
    obtain ⟨n, hn⟩ := hint d (by simp)
    have h2 := ih fun x hx => hint x (by simp [hx])
    simp only [List.map_cons, List.sum_cons, Int.cast_add, mul_add]
    push_cast at h2 ⊢
    rw [hn, pyInt_intCast]
    linarith

/-- C3 counterexample: three ticks of dt = 1/3 s sum to 1 s, but a
speed-200 zero-drift enemy advances 198 px rather than 200, because each
tick adds the integer truncation of `speed * dt`. -/
theorem enemy_motion_granularity_counterexample :
    ([(1:ℚ)/3, 1/3, 1/3] : List ℚ).sum = 1 ∧
    enemyRunY 200 0 [(1:ℚ)/3, 1/3, 1/3] = 198 ∧ (198 : ℤ) ≠ 200 := by
  refine ⟨by norm_num, ?_, by norm_num⟩
  norm_num [enemyRunY, enemyStepY, pyInt, List.foldl]

/-- C3 amended: over nonnegative ticks summing to 1 s a speed-200 enemy
advances by the sum of the truncations `int(200 * dt)`, hence at most
200 px, with exactly 200 px when every per-tick increment `200 * dt` is a
whole number (in particular for a single 1 s tick). -/
theorem enemy_motion_advance (dts : List ℚ)
    (hpos : ∀ d ∈ dts, 0 ≤ d) (hsum : dts.sum = 1) :
    enemyRunY 200 0 dts ≤ 200 ∧
    ((∀ d ∈ dts, ∃ n : ℤ, 200 * d = (n : ℚ)) →
      enemyRunY 200 0 dts = 200) := by
  constructor
  · have h := pyInt_sum_le 200 (by norm_num) dts hpos
    rw [hsum, mul_one] at h
    rw [enemyRunY_eq, zero_add]
    exact_mod_cast h
  · intro hint
    have h := pyInt_sum_eq 200 dts hint
    rw [hsum, mul_one] at h
    rw [enemyRunY_eq, zero_add]
    exact_mod_cast h

/-- Witness for the amended C3 with two half-second ticks. -/
theorem enemy_motion_advance_witness :
    (∀ d ∈ ([(1:ℚ)/2, 1/2] : List ℚ), 0 ≤ d) ∧
    ([(1:ℚ)/2, 1/2] : List ℚ).sum = 1 ∧
    (enemyRunY 200 0 [(1:ℚ)/2, 1/2] ≤ 200 ∧
      ((∀ d ∈ ([(1:ℚ)/2, 1/2] : List ℚ), ∃ n : ℤ, 200 * d = (n : ℚ)) →
        enemyRunY 200 0 [(1:ℚ)/2, 1/2] = 200)) :=
  ⟨by norm_num, by norm_num,
   enemy_motion_advance [(1:ℚ)/2, 1/2] (by norm_num) (by norm_num)⟩

/-- A lethal `Player.hit` leaves the player unchanged. -/
theorem hit_lethal_snd (p : Player) (now : ℚ) (h : (p.hit now).1 = true) :
    (p.hit now).2 = p := by
  by_cases h1 : now < p.invincible_until
  · simp [Player.hit, h1] at h
  · by_cases h2 : p.has_shield
    · simp [Player.hit, h1, h2] at h
    · simp [Player.hit, h1, h2]

/-- An absorbed `Player.hit` keeps the rect and leaves the player
absorbing again at the same instant. -/
theorem hit_absorbed_props (p : Player) (now : ℚ)
    (h : (p.hit now).1 = false) :
    ((p.hit now).2).rect = p.rect ∧
    ((p.hit now).2).hit now = (false, (p.hit now).2) := by
  by_cases h1 : now < p.invincible_until
  · simp [Player.hit, h1]
  · by_cases h2 : p.has_shield
    · have hlt : now < now + INVINCIBLE_AFTER_HIT := by
        norm_num [INVINCIBLE_AFTER_HIT]
      simp [Player.hit, h1, h2, hlt]
    · simp [Player.hit, h1, h2] at h

/-- Closed form of the enemy collision loop: the final player is the hit
result when anything collides, the game-over flag fires exactly when the
hit is lethal and some enemy collides, and the surviving list keeps
everything on a lethal hit but drops every colliding enemy on an absorbed
hit. -/
theorem resolveEnemies_eq (now : ℚ) (p : Player) (es : List Rect) :
    resolveEnemies now p es =
      ((if es.any fun e => colliderect p.rect e then (p.hit now).2 else p),
       ((p.hit now).1 && es.any fun e => colliderect p.rect e),
       (if (p.hit now).1 then es
        else es.filter fun e => !(colliderect p.rect e))) := by
  induction es generalizing p with
  | nil => simp [resolveEnemies]
  | cons e tl ih =>
    by_cases hc : colliderect p.rect e
    case pos =>
      by_cases hl : (p.hit now).1
      case pos =>
        have hp : (p.hit now).2 = p := hit_lethal_snd p now hl
        simp only [resolveEnemies, hc, if_true, hl, ite_true, hp]
        rw [ih p]
        simp [hl, hc, hp]
      case neg =>
        have hl' : (p.hit now).1 = false := by simpa using hl
        obtain ⟨hrect, hagain⟩ := hit_absorbed_props p now hl'
        simp only [resolveEnemies, hc, if_true, hl', ite_true, ite_false,
          Bool.false_eq_true]
        rw [ih ((p.hit now).2), hagain, hrect]
        simp [hc, hl']
    case neg =>
      have hc' : colliderect p.rect e = false := by simpa using hc
      simp only [resolveEnemies, hc', Bool.false_eq_true, ite_false]
      rw [ih p]
      simp [hc', apply_ite (List.cons e)]

/-- C1 amended: in `Game.handle_collisions` while playing with no live
power-ups, a lethal hit from some overlapping obstacle transitions the
session to game over and removes nothing, while an absorbed hit — whether
absorbed by the shield or by pre-existing invincibility — removes every
overlapping obstacle (not only the shield-consuming one) and leaves the
player as `Player.hit` left it. -/
theorem handle_collisions_spec (g : Game) (now : ℚ) (hp : g.powerups = []) :
    ((g.player.hit now).1 = true →
        (g.enemies.any fun e => colliderect g.player.rect e) = true →
        (g.handle_collisions now).state = GState.gameover ∧
        (g.handle_collisions now).enemies = g.enemies) ∧
    ((g.player.hit now).1 = false →
        (g.handle_collisions now).state = g.state ∧
        (g.handle_collisions now).enemies =
          (g.enemies.filter fun e => !(colliderect g.player.rect e)) ∧
        (g.handle_collisions now).player =
          (if g.enemies.any fun e => colliderect g.player.rect e
           then (g.player.hit now).2 else g.player)) := by
  constructor
  · intro hl ha
    unfold Game.handle_collisions
    rw [resolveEnemies_eq, hp]
    simp [hl, ha, resolvePowerups]
  · intro hl
    unfold Game.handle_collisions
    rw [resolveEnemies_eq, hp]
    simp [hl, resolvePowerups]

/-- The obstacle rect overlapping both sample players, used by the C1
witness and counterexample. -/
def sampleEnemyRect : Rect := { x := 110, y := 110, w := 28, h := 28 }

/-- A playing session whose avatar has neither shield nor invincibility,
with one overlapping obstacle. -/
def sampleGame : Game :=
  { player := bareSamplePlayer, enemies := [sampleEnemyRect],
    powerups := [], score := 42, high_score := 0, state := GState.play }

/-- A playing session whose avatar is invincible until t = 10 (shield
held but not consumable while invincible), with one overlapping
obstacle. -/
def invincibleGame : Game :=
  { player := samplePlayer, enemies := [sampleEnemyRect],
    powerups := [], score := 42, high_score := 0, state := GState.play }

/-- Witness for the amended C1: the unshielded sample session takes a
lethal hit and transitions to game over with the obstacle kept. -/
theorem handle_collisions_spec_witness :
    sampleGame.powerups = [] ∧
    (sampleGame.player.hit 5).1 = true ∧
    (sampleGame.enemies.any fun e => colliderect sampleGame.player.rect e)
      = true ∧
    ((sampleGame.handle_collisions 5).state = GState.gameover ∧
      (sampleGame.handle_collisions 5).enemies = sampleGame.enemies) :=
  ⟨rfl,
   by norm_num [sampleGame, bareSamplePlayer, Player.hit],
   by simp [sampleGame, bareSamplePlayer, sampleEnemyRect, colliderect],
   (handle_collisions_spec sampleGame 5 rfl).1
     (by norm_num [sampleGame, bareSamplePlayer, Player.hit])
     (by simp [sampleGame, bareSamplePlayer, sampleEnemyRect, colliderect])⟩

/-- C1 counterexample: an obstacle that overlaps while the avatar is
already invincible (hit absorbed by invincibility, shield untouched) IS
removed from the live set by `Game.handle_collisions`, contrary to the
claim that only a shield-consuming hit removes the obstacle. -/
theorem collision_invincible_removal_counterexample :
    (5 : ℚ) < invincibleGame.player.invincible_until ∧
    (invincibleGame.handle_collisions 5).player = invincibleGame.player ∧
    invincibleGame.enemies = [sampleEnemyRect] ∧
    (invincibleGame.handle_collisions 5).enemies = [] := by
  refine ⟨by norm_num [invincibleGame, samplePlayer], ?_, rfl, ?_⟩
  · have h5 : (5 : ℚ) < 10 := by norm_num
    simp [invincibleGame, samplePlayer, sampleEnemyRect, Game.handle_collisions,
      resolveEnemies, resolvePowerups, Player.hit, colliderect, h5]
  · have h5 : (5 : ℚ) < 10 := by norm_num
    simp [invincibleGame, samplePlayer, sampleEnemyRect, Game.handle_collisions,
      resolveEnemies, resolvePowerups, Player.hit, colliderect, h5]

/-- Right and down held together (diagonal input). -/
def diagKeys : Keys :=
  { left := false, right := true, up := false, down := true }

/-- Right held alone (axis input). -/
def axisKeys : Keys :=
  { left := false, right := true, up := false, down := false }

/-- The normalised direction for right+down input. -/
theorem keyVel_diag :
    keyVel diagKeys = (1 / Real.sqrt 2, 1 / Real.sqrt 2) := by
  norm_num [keyVel, diagKeys]

/-- The normalised direction for right-only input. -/
theorem keyVel_axis : keyVel axisKeys = (1, 0) := by
  norm_num [keyVel, axisKeys]

/-- Floor of the diagonal per-tick x-increment at speed 330 and
dt = 0.1 s. -/
theorem floor_diag_increment : ⌊(33 : ℝ) / Real.sqrt 2⌋ = 23 := by
  have hsq : Real.sqrt 2 ^ 2 = 2 := Real.sq_sqrt (by norm_num)
  have hpos : 0 < Real.sqrt 2 := Real.sqrt_pos.mpr (by norm_num)
  rw [Int.floor_eq_iff]
  constructor
  · rw [show (((23 : ℤ) : ℝ)) = 23 by norm_num, le_div_iff₀ hpos]
    nlinarith [hsq, hpos]
  · rw [div_lt_iff₀ hpos]
    push_cast
    nlinarith [hsq, hpos]

/-- The pre-truncation displacement magnitude of a diagonal step. -/
theorem dispMag_diag (spd dt : ℝ) (hs : 0 ≤ spd) (hd : 0 ≤ dt) :
    dispMag diagKeys spd dt = spd * dt := by
  have hsq : Real.sqrt 2 ^ 2 = 2 := Real.sq_sqrt (by norm_num)
  have hne : Real.sqrt 2 ≠ 0 := by positivity
  have hhalf : (1 / Real.sqrt 2) ^ 2 = 1 / 2 := by
    rw [div_pow, hsq]
    norm_num
  rw [dispMag, keyVel_diag]
  have he : (1 / Real.sqrt 2 * spd * dt) ^ 2 +
      (1 / Real.sqrt 2 * spd * dt) ^ 2 = (spd * dt) ^ 2 := by
    have hx : (1 / Real.sqrt 2 * spd * dt) ^ 2 =
        (1 / Real.sqrt 2) ^ 2 * (spd * dt) ^ 2 := by ring
    rw [hx, hhalf]
    ring
  rw [he, Real.sqrt_sq (by positivity)]

/-- The pre-truncation displacement magnitude of an axis step. -/
theorem dispMag_axis (spd dt : ℝ) (hs : 0 ≤ spd) (hd : 0 ≤ dt) :
    dispMag axisKeys spd dt = spd * dt := by
  rw [dispMag, keyVel_axis]
  simp only [one_mul, zero_mul]
  rw [show (0 : ℝ) ^ 2 = 0 by norm_num, add_zero,
    Real.sqrt_sq (by positivity)]

/-- C4 amended: movement is speed-normalised before integration — for
every nonnegative speed and dt, the pre-truncation displacement magnitude
with right+down held equals the one with right alone (both `speed * dt`);
the per-component truncation to integer pixels that follows can break
exact equality of the realised displacement magnitudes. -/
theorem diagonal_normalization_spec (spd dt : ℝ)
    (hs : 0 ≤ spd) (hd : 0 ≤ dt) :
    dispMag diagKeys spd dt = spd * dt ∧
    dispMag axisKeys spd dt = spd * dt :=
  ⟨dispMag_diag spd dt hs hd, dispMag_axis spd dt hs hd⟩

/-- Witness for the amended C4 at speed 330 px/s over a 1 s step. -/
theorem diagonal_normalization_spec_witness :
    (0 : ℝ) ≤ 330 ∧ (0 : ℝ) ≤ 1 ∧
    (dispMag diagKeys 330 1 = 330 * 1 ∧ dispMag axisKeys 330 1 = 330 * 1) :=
  ⟨by norm_num, by norm_num,
   diagonal_normalization_spec 330 1 (by norm_num) (by norm_num)⟩

/-- One `Player.update` step outside the dash window, written with the
clamped truncated increments exposed. -/
theorem update_eval (p : Player) (k : Keys) (dt : ℝ) (now : ℚ)
    (hnd : ¬ now < p.dash_until) :
    (p.update dt k now).rect.x =
      clampZ (p.rect.x + pyIntR ((keyVel k).1 * ((p.speed : ℚ) : ℝ) * dt)) 0
        (WIDTH - PLAYER_SIZE) ∧
    (p.update dt k now).rect.y =
      clampZ (p.rect.y + pyIntR ((keyVel k).2 * ((p.speed : ℚ) : ℝ) * dt)) 0
        (HEIGHT - PLAYER_SIZE) := by
  simp [Player.update, hnd]

/-- C4 counterexample: from (100, 100), base speed, dt = 0.1 s, the
right+down update moves the avatar to (123, 123) while the right-only
update moves it to (133, 100); the realised Euclidean displacement
magnitudes √(23² + 23²) and √(33² + 0²) are NOT equal, refuting exact
magnitude equality for every dt. -/
theorem diagonal_displacement_counterexample :
    (bareSamplePlayer.update (1/10) diagKeys 0).rect.x = 123 ∧
    (bareSamplePlayer.update (1/10) diagKeys 0).rect.y = 123 ∧
    (bareSamplePlayer.update (1/10) axisKeys 0).rect.x = 133 ∧
    (bareSamplePlayer.update (1/10) axisKeys 0).rect.y = 100 ∧
    Real.sqrt ((23 : ℝ) ^ 2 + 23 ^ 2) ≠ Real.sqrt ((33 : ℝ) ^ 2 + 0 ^ 2) := by
  have hnd : ¬ (0 : ℚ) < bareSamplePlayer.dash_until := by
    norm_num [bareSamplePlayer]
  have hpos : 0 < Real.sqrt 2 := Real.sqrt_pos.mpr (by norm_num)
  have hdiaginc : (1 : ℝ) / Real.sqrt 2 * ((PLAYER_SPEED : ℚ) : ℝ) * (1/10) =
      33 / Real.sqrt 2 := by
    rw [show ((PLAYER_SPEED : ℚ) : ℝ) = 330 by norm_num [PLAYER_SPEED]]
    field_simp
    ring
  have hdiag : pyIntR ((keyVel diagKeys).1 * ((PLAYER_SPEED : ℚ) : ℝ) * (1/10))
      = 23 := by
    rw [keyVel_diag]
    show pyIntR ((1 : ℝ) / Real.sqrt 2 * ((PLAYER_SPEED : ℚ) : ℝ) * (1/10)) = 23
    rw [hdiaginc, pyIntR, if_pos (by positivity)]
    exact floor_diag_increment
  have hdiag2 : pyIntR ((keyVel diagKeys).2 * ((PLAYER_SPEED : ℚ) : ℝ) * (1/10))
      = 23 := by
    rw [keyVel_diag]
    show pyIntR ((1 : ℝ) / Real.sqrt 2 * ((PLAYER_SPEED : ℚ) : ℝ) * (1/10)) = 23
    rw [hdiaginc, pyIntR, if_pos (by positivity)]
    exact floor_diag_increment
  have haxis1 : pyIntR ((keyVel axisKeys).1 * ((PLAYER_SPEED : ℚ) : ℝ) * (1/10))
      = 33 := by
    rw [keyVel_axis]
    have : (1 : ℝ) * ((PLAYER_SPEED : ℚ) : ℝ) * (1/10) = 33 := by
      norm_num [PLAYER_SPEED]
    rw [this, pyIntR, if_pos (by norm_num)]
    norm_num
  have haxis2 : pyIntR ((keyVel axisKeys).2 * ((PLAYER_SPEED : ℚ) : ℝ) * (1/10))
      = 0 := by
    rw [keyVel_axis]
    have : (0 : ℝ) * ((PLAYER_SPEED : ℚ) : ℝ) * (1/10) = 0 := by ring
    rw [this, pyIntR, if_pos le_rfl]
    norm_num
  obtain ⟨hdx, hdy⟩ := update_eval bareSamplePlayer diagKeys (1/10) 0 hnd
  obtain ⟨hax, hay⟩ := update_eval bareSamplePlayer axisKeys (1/10) 0 hnd
  have hspeed : bareSamplePlayer.speed = PLAYER_SPEED := rfl
  refine ⟨?_, ?_, ?_, ?_, ?_⟩
  · rw [hdx, hspeed, hdiag]
    norm_num [bareSamplePlayer, clampZ, WIDTH, PLAYER_SIZE]
  · rw [hdy, hspeed, hdiag2]
    norm_num [bareSamplePlayer, clampZ, HEIGHT, PLAYER_SIZE]
  · rw [hax, hspeed, haxis1]
    norm_num [bareSamplePlayer, clampZ, WIDTH, PLAYER_SIZE]
  · rw [hay, hspeed, haxis2]
    norm_num [bareSamplePlayer, clampZ, HEIGHT, PLAYER_SIZE]
  · have h1 : Real.sqrt ((23 : ℝ) ^ 2 + 23 ^ 2) < Real.sqrt ((33 : ℝ) ^ 2 + 0 ^ 2) := by
      apply Real.sqrt_lt_sqrt (by positivity)
      norm_num
    exact ne_of_lt h1

end Dodger
